import Mathlib

/-!
Verification of the indicator / trade-signal core of the scalpbot repository
(src/index.js) against its natural-language specification.

The JavaScript source is shallowly embedded: JS numbers are modelled as
rationals (ℚ), exact where the source's binary64 arithmetic is exact enough
not to change any rounded result appearing in a claim; `toFixed(2)` followed
by `parseFloat` is modelled by `toFixed2` (round half up to 2 decimals, the
behaviour of `toFixed` on the nonnegative values involved).
-/

namespace ScalpBot

/-- Model of `parseFloat(x.toFixed(2))` for the nonnegative prices used by the
bot: round half up to two decimals. -/
def toFixed2 (q : ℚ) : ℚ := ((Int.floor (q * 100 + 1 / 2) : ℤ) : ℚ) / 100

/-- Trade direction, from the `/enter SYMBOL CALL|PUT PRICE` command. -/
inductive Direction
  | CALL
  | PUT
deriving DecidableEq, Repr

/-- Embedding of the TP1/TP2/SL computation in the `/enter` command handler
(src/index.js lines 1747-1761): fixed percentages +0.6% / +1.2% / -0.75% for
CALL, mirrored for PUT, each stored via `parseFloat(x.toFixed(2))`.
Returns `(tp1, tp2, sl)`. -/
def enterTargets (direction : Direction) (entryPrice : ℚ) : ℚ × ℚ × ℚ :=
  let tp1 := match direction with
    | .CALL => entryPrice * 1.006
    | .PUT => entryPrice * 0.994
  let tp2 := match direction with
    | .CALL => entryPrice * 1.012
    | .PUT => entryPrice * 0.988
  let sl := match direction with
    | .CALL => entryPrice * 0.9925
    | .PUT => entryPrice * 1.0075
  (toFixed2 tp1, toFixed2 tp2, toFixed2 sl)

/-- Values of `indicators.trend.direction` produced by `analyzeTrend`. -/
inductive TrendDirection
  | uptrend
  | downtrend
  | sideways
deriving DecidableEq, Repr

/-- Values of `indicators.trend.emaStack` produced by `getEMAStack`. -/
inductive EMAStack
  | bullish
  | bearish
  | mixed
deriving DecidableEq, Repr

/-- Values of `indicators.momentum.direction` produced by `calculateMomentum`. -/
inductive MomentumDirection
  | bullish
  | bearish
  | neutral
deriving DecidableEq, Repr

/-- Values of `indicators.volumeAnalysis.profile` produced by `analyzeVolume`. -/
inductive VolumeProfile
  | high
  | aboveAverage
  | average
  | belowAverage
  | low
deriving DecidableEq, Repr

/-- The `trend` sub-object of an indicator snapshot (fields read by
`computeConfidence`). -/
structure TrendInfo where
  direction : TrendDirection
  emaStack : EMAStack
deriving DecidableEq, Repr

/-- The `momentum` sub-object of an indicator snapshot (field read by
`computeConfidence`). -/
structure MomentumInfo where
  direction : MomentumDirection
deriving DecidableEq, Repr

/-- The `volumeAnalysis` sub-object of an indicator snapshot (field read by
`computeConfidence`). -/
structure VolumeInfo where
  profile : VolumeProfile
deriving DecidableEq, Repr

/-- The part of an indicator snapshot that `computeConfidence` inspects. -/
structure Snapshot where
  trend : TrendInfo
  momentum : MomentumInfo
  volumeAnalysis : VolumeInfo
  rsi : ℚ
  stochRSI : ℚ
deriving DecidableEq, Repr

/-- Additive rule score accumulated by `computeConfidence` before the
`Math.min(100, score)` cap (src/index.js lines 937-962), term for term in
source order. -/
def confidenceScore (indicators : Snapshot) : ℤ :=
  (if indicators.trend.direction = TrendDirection.uptrend then 20 else 0) +
  (if indicators.trend.direction = TrendDirection.downtrend then 20 else 0) +
  (if indicators.trend.emaStack = EMAStack.bullish then 20 else 0) +
  (if indicators.trend.emaStack = EMAStack.bearish then 20 else 0) +
  (if indicators.momentum.direction = MomentumDirection.bullish then 15 else 0) +
  (if indicators.momentum.direction = MomentumDirection.bearish then 15 else 0) +
  (if indicators.volumeAnalysis.profile = VolumeProfile.high then 15 else 0) +
  (if indicators.volumeAnalysis.profile = VolumeProfile.aboveAverage then 8 else 0) +
  (if 50 < indicators.rsi ∧ indicators.rsi < 70 then 10 else 0) +
  (if indicators.rsi < 50 ∧ 30 < indicators.rsi then 10 else 0) +
  (if indicators.stochRSI < 80 ∧ 20 < indicators.stochRSI then 10 else 0)

/-- Embedding of `computeConfidence` (src/index.js lines 937-964):
the rule score capped by `Math.min(100, score)`. -/
def computeConfidence (indicators : Snapshot) : ℤ :=
  min 100 (confidenceScore indicators)

/-- Trading styles of the `TIMEFRAMES` table (src/index.js lines 30-64). -/
inductive TradingStyle
  | scalping
  | daytrading
  | swing
deriving DecidableEq, Repr

/-- Embedding of the trade-permission computation in `analyzeTextMultiTF`
(src/index.js lines 1128-1137): `allowTrade = systemConfidence >= 65`, then
forced to `false` for scalping when the LTF snapshot is absent or invalid
(the three JS conditions on `marketData.ltf` collapse to the single validity
flag set by `getMarketDataMultiTF`). -/
def allowTrade (indicators : Snapshot) (style : TradingStyle) (ltfValid : Bool) : Bool :=
  let base := decide (65 ≤ computeConfidence indicators)
  if style = TradingStyle.scalping ∧ ltfValid = false then false else base

/-- Trade record stored in `activeTrades` by the `/enter` handler
(src/index.js lines 1754-1766); `entryTime` is replaced by the elapsed
minutes passed to each monitor tick. -/
structure Trade where
  direction : Direction
  entryPrice : ℚ
  tp1 : ℚ
  tp2 : ℚ
  sl : ℚ
  currentPrice : ℚ
  tp1Hit : Bool
  tp2Hit : Bool
  slHit : Bool
deriving DecidableEq, Repr

/-- Alert kinds sent by the trade monitor. -/
inductive Event
  | tp1
  | tp2
  | sl
  | timeStop
deriving DecidableEq, Repr

/-- Embedding of one tick of the `setInterval` body in `startTradeMonitoring`
(src/index.js lines 1866-1938). `price?` is the result of `getMarketData`:
`none` models the fetch throwing, which lands in the catch block (the whole
try body, including the time-stop check, is skipped). `elapsed` is
`(now - entryTime)` in minutes. Returns the updated trade, the alert events
emitted on this tick in source order, and whether the interval keeps running
(`clearInterval` is called exactly in the SL and time-stop branches). -/
def monitorTick (trade : Trade) (price? : Option ℚ) (elapsed : ℚ) :
    Trade × List Event × Bool :=
  match price? with
  | none => (trade, [], true)
  | some currentPrice =>
    let tp1Trig := !trade.tp1Hit &&
      (match trade.direction with
        | .CALL => decide (trade.tp1 ≤ currentPrice)
        | .PUT => decide (currentPrice ≤ trade.tp1))
    let tp2Trig := !trade.tp2Hit &&
      (match trade.direction with
        | .CALL => decide (trade.tp2 ≤ currentPrice)
        | .PUT => decide (currentPrice ≤ trade.tp2))
    let slTrig := !trade.slHit &&
      (match trade.direction with
        | .CALL => decide (currentPrice ≤ trade.sl)
        | .PUT => decide (trade.sl ≤ currentPrice))
    let timeTrig := decide (30 ≤ elapsed)
    ({ trade with
      tp1Hit := trade.tp1Hit || tp1Trig
      tp2Hit := trade.tp2Hit || tp2Trig
      slHit := trade.slHit || slTrig
      currentPrice := currentPrice },
    (if tp1Trig then [Event.tp1] else []) ++ (if tp2Trig then [Event.tp2] else []) ++
      (if slTrig then [Event.sl] else []) ++ (if timeTrig then [Event.timeStop] else []),
    !(slTrig || timeTrig))

/-- The monitor loop: successive ticks are evaluated only while the previous
tick left the interval running. Each list element supplies one tick's fetched
price (or fetch failure) and elapsed minutes. -/
def monitorRun (trade : Trade) : List (Option ℚ × ℚ) → Trade × List Event
  | [] => (trade, [])
  | (price?, elapsed) :: rest =>
    let step := monitorTick trade price? elapsed
    if step.2.2 then
      let tail := monitorRun step.1 rest
      (tail.1, step.2.1 ++ tail.2)
    else (step.1, step.2.1)

/-- The percentage fields of one row of the `TIMEFRAMES` table consumed by
`calculateTargets` (src/index.js lines 30-64). -/
structure StyleConfig where
  tp1 : ℚ
  tp2 : ℚ
  sl : ℚ
  rr_min : ℚ
deriving DecidableEq, Repr

/-- The scalping row of `TIMEFRAMES`. -/
def scalpingConfig : StyleConfig := ⟨0.003, 0.006, 0.005, 1.5⟩

/-- The daytrading row of `TIMEFRAMES`. -/
def daytradingConfig : StyleConfig := ⟨0.008, 0.015, 0.008, 1.5⟩

/-- The swing row of `TIMEFRAMES`. -/
def swingConfig : StyleConfig := ⟨0.025, 0.05, 0.02, 2.0⟩

/-- The `atrMultiplier` of `calculateTargets` (src/index.js line 323):
`atr > 0 ? Math.min(atr / entryPrice, 0.02) : 0`. -/
def atrMultiplier (entryPrice atr : ℚ) : ℚ :=
  if 0 < atr then min (atr / entryPrice) 0.02 else 0

/-- Pre-rounding `tp1` of `calculateTargets` (src/index.js lines 318, 326). -/
def targetTp1 (entryPrice : ℚ) (config : StyleConfig) (atr : ℚ) : ℚ :=
  entryPrice * (1 + config.tp1) + entryPrice * atrMultiplier entryPrice atr * 0.5

/-- Pre-rounding `tp2` of `calculateTargets` (src/index.js lines 319, 327). -/
def targetTp2 (entryPrice : ℚ) (config : StyleConfig) (atr : ℚ) : ℚ :=
  entryPrice * (1 + config.tp2) + entryPrice * atrMultiplier entryPrice atr

/-- Pre-rounding `sl` of `calculateTargets` (src/index.js lines 320, 328). -/
def targetSl (entryPrice : ℚ) (config : StyleConfig) (atr : ℚ) : ℚ :=
  entryPrice * (1 - config.sl) - entryPrice * atrMultiplier entryPrice atr * 0.3

/-- The `risk` of `calculateTargets` (src/index.js line 331). -/
def targetRisk (entryPrice : ℚ) (config : StyleConfig) (atr : ℚ) : ℚ :=
  entryPrice - targetSl entryPrice config atr

/-- The `reward1` of `calculateTargets` (src/index.js line 332). -/
def targetReward1 (entryPrice : ℚ) (config : StyleConfig) (atr : ℚ) : ℚ :=
  targetTp1 entryPrice config atr - entryPrice

/-- The `reward2` of `calculateTargets` (src/index.js line 333). -/
def targetReward2 (entryPrice : ℚ) (config : StyleConfig) (atr : ℚ) : ℚ :=
  targetTp2 entryPrice config atr - entryPrice

/-- The `rr1` of `calculateTargets` with its `risk > 0` guard
(src/index.js line 335). -/
def targetRr1 (entryPrice : ℚ) (config : StyleConfig) (atr : ℚ) : ℚ :=
  if 0 < targetRisk entryPrice config atr then
    targetReward1 entryPrice config atr / targetRisk entryPrice config atr
  else 0

/-- The `rr2` of `calculateTargets` with its `risk > 0` guard
(src/index.js line 336). -/
def targetRr2 (entryPrice : ℚ) (config : StyleConfig) (atr : ℚ) : ℚ :=
  if 0 < targetRisk entryPrice config atr then
    targetReward2 entryPrice config atr / targetRisk entryPrice config atr
  else 0

/-- The numeric fields of the object returned by `calculateTargets`
(src/index.js lines 338-354); the percentage and `hold_time` fields are
formatted strings and are not part of any claim. -/
structure TargetSet where
  entry : ℚ
  tp1 : ℚ
  tp2 : ℚ
  sl : ℚ
  rr1 : ℚ
  rr2 : ℚ
  risk_amount : ℚ
  reward1_amount : ℚ
  reward2_amount : ℚ
  min_rr : ℚ
deriving DecidableEq, Repr

/-- Embedding of `calculateTargets` (src/index.js lines 316-354): the
pre-rounding values above, rounded to 2 decimals on output. -/
def calculateTargets (entryPrice : ℚ) (config : StyleConfig) (atr : ℚ) : TargetSet :=
  { entry := entryPrice
    tp1 := toFixed2 (targetTp1 entryPrice config atr)
    tp2 := toFixed2 (targetTp2 entryPrice config atr)
    sl := toFixed2 (targetSl entryPrice config atr)
    rr1 := toFixed2 (targetRr1 entryPrice config atr)
    rr2 := toFixed2 (targetRr2 entryPrice config atr)
    risk_amount := toFixed2 (targetRisk entryPrice config atr)
    reward1_amount := toFixed2 (targetReward1 entryPrice config atr)
    reward2_amount := toFixed2 (targetReward2 entryPrice config atr)
    min_rr := config.rr_min }

/-- Adjacent differences of a close series: element `i` is
`closes[i+1] - closes[i]`. -/
def deltas : List ℚ → List ℚ
  | [] => []
  | [_] => []
  | a :: b :: rest => (b - a) :: deltas (b :: rest)

/-- The deltas summed by the `calculateRSI` loop (src/index.js lines 814-821):
`closes[i] - closes[i-1]` for `i` from `closes.length - period` to the end,
i.e. the adjacent differences of the trailing window of `period + 1` closes. -/
def trailingDeltas (closes : List ℚ) (period : ℕ) : List ℚ :=
  deltas (closes.drop (closes.length - (period + 1)))

/-- The `gains` accumulator of `calculateRSI` (change added when positive). -/
def rsiGains (closes : List ℚ) (period : ℕ) : ℚ :=
  ((trailingDeltas closes period).map fun c => if 0 < c then c else 0).sum

/-- The `losses` accumulator of `calculateRSI` (`Math.abs(change)` added when
the change is not positive). -/
def rsiLosses (closes : List ℚ) (period : ℕ) : ℚ :=
  ((trailingDeltas closes period).map fun c => if 0 < c then 0 else -c).sum

/-- Embedding of `calculateRSI` (src/index.js lines 808-832): 50 on
insufficient length, 100 when the average loss is zero, otherwise
`100 - 100 / (1 + avgGain / avgLoss)`. -/
def calculateRSI (closes : List ℚ) (period : ℕ) : ℚ :=
  if closes.length < period + 1 then 50
  else if rsiLosses closes period / (period : ℚ) = 0 then 100
  else
    100 - 100 / (1 +
      (rsiGains closes period / (period : ℚ)) / (rsiLosses closes period / (period : ℚ)))

/-- Strength labels attached to finished support/resistance level objects. -/
inductive StrengthTag
  | strong
  | moderate
  | weak
deriving DecidableEq, Repr

/-- Values of the `type` field of support/resistance objects. -/
inductive LevelKind
  | swingLow
  | swingHigh
deriving DecidableEq, Repr

/-- Raw swing candidate pushed onto `levels` by the scan loops of
`findSupportLevelsAdvanced` / `findResistanceLevelsAdvanced`; `strength`
is the numeric confluence touch count. -/
structure SRCandidate where
  price : ℚ
  strength : ℕ
  type : LevelKind
deriving DecidableEq, Repr

/-- Finished level object with the tagged strength label. -/
structure SRLevel where
  price : ℚ
  strength : StrengthTag
  type : LevelKind
deriving DecidableEq, Repr

/-- The swing-low scan loop of `findSupportLevelsAdvanced` (src/index.js
lines 560-581): over `lows.slice(-100)`, index `i` (with two neighbours on
each side) is a candidate when `lows[i]` is strictly below all four
neighbours and below the current price; its strength counts the lows within
0.2 percent of the level price. -/
def swingLowCandidates (lows : List ℚ) (currentPrice : ℚ) : List SRCandidate :=
  let recentLows := lows.drop (lows.length - 100)
  ((List.range recentLows.length).filter fun i =>
    decide (2 ≤ i ∧ i + 2 < recentLows.length ∧
      recentLows.getD i 0 < recentLows.getD (i - 1) 0 ∧
      recentLows.getD i 0 < recentLows.getD (i - 2) 0 ∧
      recentLows.getD i 0 < recentLows.getD (i + 1) 0 ∧
      recentLows.getD i 0 < recentLows.getD (i + 2) 0 ∧
      recentLows.getD i 0 < currentPrice)).map fun i =>
    { price := recentLows.getD i 0
      strength := (recentLows.filter fun low =>
        decide (|low - recentLows.getD i 0| < recentLows.getD i 0 * 0.002)).length
      type := LevelKind.swingLow }

/-- The support sort comparator (src/index.js lines 597-601):
`(b.strength - a.strength) || (distanceA - distanceB)` with
`distance = currentPrice - price`, as the at-most relation of a stable sort. -/
def supportLe (currentPrice : ℚ) (a b : SRCandidate) : Bool :=
  decide (b.strength < a.strength ∨
    (a.strength = b.strength ∧ currentPrice - a.price ≤ currentPrice - b.price))

/-- Embedding of `findSupportLevelsAdvanced` (src/index.js lines 558-618).
The executed body scans for swing lows, computes an unused VWAP value, and
returns `levels.sort(comparator)`: automatic semicolon insertion closes the
`return levels.sort(...)` statement at the line break before the
deduplication comment, so the dedup / cap-at-3 / strength-tagging code of
lines 602-617 is unreachable. The returned objects therefore keep numeric
touch-count strengths, and the `closes` parameter feeds only the unused
VWAP computation. -/
def findSupportLevelsAdvanced (lows closes : List ℚ) (currentPrice : ℚ) :
    List SRCandidate :=
  (swingLowCandidates lows currentPrice).mergeSort (supportLe currentPrice)

/-- The swing-high scan loop of `findResistanceLevelsAdvanced` (src/index.js
lines 623-643), mirror image of the swing-low scan. -/
def swingHighCandidates (highs : List ℚ) (currentPrice : ℚ) : List SRCandidate :=
  let recentHighs := highs.drop (highs.length - 100)
  ((List.range recentHighs.length).filter fun i =>
    decide (2 ≤ i ∧ i + 2 < recentHighs.length ∧
      recentHighs.getD (i - 1) 0 < recentHighs.getD i 0 ∧
      recentHighs.getD (i - 2) 0 < recentHighs.getD i 0 ∧
      recentHighs.getD (i + 1) 0 < recentHighs.getD i 0 ∧
      recentHighs.getD (i + 2) 0 < recentHighs.getD i 0 ∧
      currentPrice < recentHighs.getD i 0)).map fun i =>
    { price := recentHighs.getD i 0
      strength := (recentHighs.filter fun high =>
        decide (|high - recentHighs.getD i 0| < recentHighs.getD i 0 * 0.002)).length
      type := LevelKind.swingHigh }

/-- The resistance sort comparator (src/index.js lines 647-651):
`(b.strength - a.strength) || (distanceA - distanceB)` with
`distance = price - currentPrice`. -/
def resistanceLe (currentPrice : ℚ) (a b : SRCandidate) : Bool :=
  decide (b.strength < a.strength ∨
    (a.strength = b.strength ∧ a.price - currentPrice ≤ b.price - currentPrice))

/-- The strength tagging of the final `.map` (src/index.js line 655):
strong when the touch count is at least 3, moderate at 2, weak below 2. -/
def tagStrength (touches : ℕ) : StrengthTag :=
  if 3 ≤ touches then StrengthTag.strong
  else if 2 ≤ touches then StrengthTag.moderate
  else StrengthTag.weak

/-- The final mapping of `findResistanceLevelsAdvanced` (src/index.js lines
653-657): 2-decimal price, tagged strength, unchanged type. -/
def toLevel (c : SRCandidate) : SRLevel :=
  { price := toFixed2 c.price
    strength := tagStrength c.strength
    type := c.type }

/-- Embedding of `findResistanceLevelsAdvanced` (src/index.js lines 621-658):
sort the swing-high candidates, keep the first 3, round and tag them. This
function contains no deduplication step. -/
def findResistanceLevelsAdvanced (highs closes : List ℚ) (currentPrice : ℚ) :
    List SRLevel :=
  (((swingHighCandidates highs currentPrice).mergeSort
      (resistanceLe currentPrice)).take 3).map toLevel

/-- Values of the `position` field of `calculateBollingerBands`; the
degenerate short-history branch returns an object without this field. -/
inductive BandPosition
  | upper
  | middle
  | lower
deriving DecidableEq, Repr

/-- Result object of `calculateBollingerBands`. -/
structure BollingerBands where
  upper : ℝ
  middle : ℝ
  lower : ℝ
  width : ℝ
  position : Option BandPosition

/-- The SMA of the last `period` closes (src/index.js lines 749-750). -/
def bbSma (closes : List ℚ) (period : ℕ) : ℚ :=
  (closes.drop (closes.length - period)).sum / period

/-- The population variance of the last `period` closes around the SMA
(src/index.js lines 752-753). -/
def bbVariance (closes : List ℚ) (period : ℕ) : ℚ :=
  ((closes.drop (closes.length - period)).map
    fun c => (c - bbSma closes period) ^ 2).sum / period

/-- The standard deviation `Math.sqrt(variance)` (src/index.js line 754). -/
noncomputable def bbStdDev (closes : List ℚ) (period : ℕ) : ℝ :=
  Real.sqrt ((bbVariance closes period : ℚ) : ℝ)

/-- Embedding of `calculateBollingerBands` (src/index.js lines 743-766):
with fewer than `period` closes the degenerate fallback scales the last
close by 1.02 / 0.98; otherwise SMA plus/minus 2 standard deviations, with
the width and position fields of the source. -/
noncomputable def calculateBollingerBands (closes : List ℚ) (period : ℕ) :
    BollingerBands :=
  if closes.length < period then
    { upper := ((closes.getLastD 0 * 1.02 : ℚ) : ℝ)
      middle := ((closes.getLastD 0 : ℚ) : ℝ)
      lower := ((closes.getLastD 0 * 0.98 : ℚ) : ℝ)
      width := 4
      position := none }
  else
    { upper := ((bbSma closes period : ℚ) : ℝ) + bbStdDev closes period * 2
      middle := ((bbSma closes period : ℚ) : ℝ)
      lower := ((bbSma closes period : ℚ) : ℝ) - bbStdDev closes period * 2
      width := (((bbSma closes period : ℚ) : ℝ) + bbStdDev closes period * 2 -
          (((bbSma closes period : ℚ) : ℝ) - bbStdDev closes period * 2)) /
          ((bbSma closes period : ℚ) : ℝ) * 100
      position := some
        (if ((bbSma closes period : ℚ) : ℝ) + bbStdDev closes period <
            ((closes.getLastD 0 : ℚ) : ℝ) then BandPosition.upper
        else if ((closes.getLastD 0 : ℚ) : ℝ) <
            ((bbSma closes period : ℚ) : ℝ) - bbStdDev closes period then
          BandPosition.lower
        else BandPosition.middle) }

end ScalpBot

namespace ScalpBot

/- Helper lemmas about the if-terms of the confidence score. -/

theorem ite_zero_nonneg (c : Prop) [Decidable c] (a : ℤ) (h : 0 ≤ a) :
    0 ≤ if c then a else 0 := by
  split_ifs <;> simp [h]

theorem ite_zero_le (c : Prop) [Decidable c] (a b : ℤ) (h : a ≤ b) (h0 : 0 ≤ b) :
    (if c then a else 0) ≤ b := by
  split_ifs <;> assumption

/-- C4: `computeConfidence` on a snapshot with trend.direction uptrend,
emaStack bullish, momentum bullish, volume profile high, rsi = 60 and
stochastic RSI = 50 returns exactly 90 = 20+20+15+15+10+10. -/
theorem computeConfidence_exact_90 :
    computeConfidence
      ⟨⟨TrendDirection.uptrend, EMAStack.bullish⟩,
        ⟨MomentumDirection.bullish⟩, ⟨VolumeProfile.high⟩, 60, 50⟩ = 90 := by
  decide

/-- C9: for every snapshot the confidence score lies in [0, 90], and the
`Math.min(100, score)` cap never binds: `computeConfidence` equals the raw
rule score, which cannot exceed 90 because the conditions inside each of the
six rule groups are mutually exclusive. -/
theorem computeConfidence_range_and_cap_unreachable (s : Snapshot) :
    0 ≤ computeConfidence s ∧ computeConfidence s ≤ 90 ∧
      computeConfidence s = confidenceScore s := by
  rcases s with ⟨⟨td, es⟩, ⟨md⟩, ⟨vp⟩, r, st⟩
  have h1 : (if td = TrendDirection.uptrend then (20 : ℤ) else 0) +
      (if td = TrendDirection.downtrend then 20 else 0) ≤ 20 := by
    rcases td <;> simp
  have h2 : (if es = EMAStack.bullish then (20 : ℤ) else 0) +
      (if es = EMAStack.bearish then 20 else 0) ≤ 20 := by
    rcases es <;> simp
  have h3 : (if md = MomentumDirection.bullish then (15 : ℤ) else 0) +
      (if md = MomentumDirection.bearish then 15 else 0) ≤ 15 := by
    rcases md <;> simp
  have h4 : (if vp = VolumeProfile.high then (15 : ℤ) else 0) +
      (if vp = VolumeProfile.aboveAverage then 8 else 0) ≤ 15 := by
    rcases vp <;> simp
  have h5 : (if 50 < r ∧ r < 70 then (10 : ℤ) else 0) +
      (if r < 50 ∧ 30 < r then 10 else 0) ≤ 10 := by
    split_ifs with hA hB hB <;> try norm_num
    exact absurd (lt_trans hA.1 hB.1) (lt_irrefl _)
  have h6 : (if st < 80 ∧ 20 < st then (10 : ℤ) else 0) ≤ 10 :=
    ite_zero_le _ _ _ le_rfl (by norm_num)
  have n1 := ite_zero_nonneg (td = TrendDirection.uptrend) (20 : ℤ) (by norm_num)
  have n2 := ite_zero_nonneg (td = TrendDirection.downtrend) (20 : ℤ) (by norm_num)
  have n3 := ite_zero_nonneg (es = EMAStack.bullish) (20 : ℤ) (by norm_num)
  have n4 := ite_zero_nonneg (es = EMAStack.bearish) (20 : ℤ) (by norm_num)
  have n5 := ite_zero_nonneg (md = MomentumDirection.bullish) (15 : ℤ) (by norm_num)
  have n6 := ite_zero_nonneg (md = MomentumDirection.bearish) (15 : ℤ) (by norm_num)
  have n7 := ite_zero_nonneg (vp = VolumeProfile.high) (15 : ℤ) (by norm_num)
  have n8 := ite_zero_nonneg (vp = VolumeProfile.aboveAverage) (8 : ℤ) (by norm_num)
  have n9 := ite_zero_nonneg (50 < r ∧ r < 70) (10 : ℤ) (by norm_num)
  have n10 := ite_zero_nonneg (r < 50 ∧ 30 < r) (10 : ℤ) (by norm_num)
  have n11 := ite_zero_nonneg (st < 80 ∧ 20 < st) (10 : ℤ) (by norm_num)
  have hscore : confidenceScore ⟨⟨td, es⟩, ⟨md⟩, ⟨vp⟩, r, st⟩ ≤ 90 := by
    unfold confidenceScore
    dsimp only
    linarith
  have hnn : 0 ≤ confidenceScore ⟨⟨td, es⟩, ⟨md⟩, ⟨vp⟩, r, st⟩ := by
    unfold confidenceScore
    dsimp only
    linarith
  have hmin : computeConfidence ⟨⟨td, es⟩, ⟨md⟩, ⟨vp⟩, r, st⟩ =
      confidenceScore ⟨⟨td, es⟩, ⟨md⟩, ⟨vp⟩, r, st⟩ :=
    min_eq_right (by linarith)
  refine ⟨?_, ?_, hmin⟩
  · rw [hmin]; exact hnn
  · rw [hmin]; exact hscore

/-- C2 counterexample: the claim states that `/enter SPY CALL 585.50` stores
tp2 = 592.52 and sl = 581.12, but the code stores
tp2 = round2(585.50 times 1.012) = round2(592.526) = 592.53 and
sl = round2(585.50 times 0.9925) = round2(581.10875) = 581.11. -/
theorem enterTargets_585_claim_false :
    enterTargets Direction.CALL (585.50 : ℚ) ≠
      ((589.01 : ℚ), (592.52 : ℚ), (581.12 : ℚ)) := by
  simp only [enterTargets, toFixed2, Prod.mk.injEq, ne_eq, not_and]
  norm_num

/-- C2 (amended): for a CALL trade entered at 585.50 the stored
fixed-percentage targets are tp1 = 589.01, tp2 = 592.53 and sl = 581.11,
each rounded to 2 decimals. -/
theorem enterTargets_585_values :
    enterTargets Direction.CALL (585.50 : ℚ) =
      ((589.01 : ℚ), (592.53 : ℚ), (581.11 : ℚ)) := by
  simp only [enterTargets, toFixed2, Prod.mk.injEq]
  norm_num

/-- C7: the trade-permission flag computed in the analysis path is true
exactly when the rule-based confidence is at least 65 and, for the scalping
style, the lower-timeframe snapshot is available and valid. -/
theorem allowTrade_iff (s : Snapshot) (style : TradingStyle) (ltfValid : Bool) :
    allowTrade s style ltfValid = true ↔
      (65 ≤ computeConfidence s ∧
        (style = TradingStyle.scalping → ltfValid = true)) := by
  unfold allowTrade
  rcases style <;> rcases ltfValid <;>
    simp [decide_eq_true_iff]

/-- Witness for C7 at a concrete input: a day-trading request with an invalid
LTF snapshot and confidence 90 is tradeable. -/
theorem allowTrade_iff_witness :
    allowTrade
      ⟨⟨TrendDirection.uptrend, EMAStack.bullish⟩,
        ⟨MomentumDirection.bullish⟩, ⟨VolumeProfile.high⟩, 60, 50⟩
      TradingStyle.daytrading false = true :=
  (allowTrade_iff _ _ _).mpr ⟨by decide, by decide⟩

/-- C3: on a tick whose price fetch succeeds, the monitor stops exactly when
this tick sets `slHit` or the elapsed time reaches 30 minutes; a tick that
only sets `tp1Hit` or `tp2Hit` leaves monitoring running; and once a tick
stops the monitor, the trades and events produced are independent of every
later tick, so the trade is never evaluated again. -/
theorem monitorTick_stop_iff (trade : Trade) (p elapsed : ℚ)
    (rest : List (Option ℚ × ℚ)) :
    ((monitorTick trade (some p) elapsed).2.2 = false ↔
      (((monitorTick trade (some p) elapsed).1.slHit = true ∧ trade.slHit = false) ∨
        30 ≤ elapsed)) ∧
    ((((monitorTick trade (some p) elapsed).1.tp1Hit = true ∧ trade.tp1Hit = false) ∨
        ((monitorTick trade (some p) elapsed).1.tp2Hit = true ∧ trade.tp2Hit = false)) →
      (monitorTick trade (some p) elapsed).1.slHit = trade.slHit →
      elapsed < 30 →
      (monitorTick trade (some p) elapsed).2.2 = true) ∧
    ((monitorTick trade (some p) elapsed).2.2 = false →
      monitorRun trade ((some p, elapsed) :: rest) =
        ((monitorTick trade (some p) elapsed).1,
          (monitorTick trade (some p) elapsed).2.1)) := by
  rcases trade with ⟨dir, e, t1, t2, s, cp, f1, f2, f3⟩
  have hrun : (monitorTick ⟨dir, e, t1, t2, s, cp, f1, f2, f3⟩ (some p) elapsed).2.2 = false →
      monitorRun ⟨dir, e, t1, t2, s, cp, f1, f2, f3⟩ ((some p, elapsed) :: rest) =
        ((monitorTick ⟨dir, e, t1, t2, s, cp, f1, f2, f3⟩ (some p) elapsed).1,
          (monitorTick ⟨dir, e, t1, t2, s, cp, f1, f2, f3⟩ (some p) elapsed).2.1) := by
    intro h
    simp only [monitorRun, h, Bool.false_eq_true, if_false]
  refine ⟨?_, ?_, hrun⟩ <;>
    rcases dir <;> rcases f1 <;> rcases f2 <;> rcases f3 <;>
      by_cases h30 : (30 : ℚ) ≤ elapsed <;>
        simp_all [monitorTick, not_le]
  all_goals
    rw [← not_le]
    tauto

/-- Witness for C3 at a concrete input: a CALL trade whose price drops to 98,
through its stop at 99, is no longer monitored after that tick. -/
theorem monitorTick_stop_iff_witness :
    (monitorTick ⟨Direction.CALL, 100, 101, 102, 99, 100, false, false, false⟩
      (some 98) 0).2.2 = false :=
  (monitorTick_stop_iff ⟨Direction.CALL, 100, 101, 102, 99, 100, false, false, false⟩
      98 0 []).1.mpr (Or.inl ⟨by decide, by decide⟩)

/-- C8: on a tick whose price fetch fails, the trade state (all hit flags and
the cached price) is unchanged, no alert event is emitted, the loop keeps
running, and the trade is evaluated again from the same state on the next
tick: the failed tick is invisible to the rest of the run. -/
theorem monitorTick_failed_fetch (trade : Trade) (elapsed : ℚ)
    (rest : List (Option ℚ × ℚ)) :
    monitorTick trade none elapsed = (trade, [], true) ∧
      monitorRun trade ((none, elapsed) :: rest) = monitorRun trade rest := by
  refine ⟨rfl, ?_⟩
  simp [monitorRun, monitorTick]

theorem atrMultiplier_nonneg (entryPrice atr : ℚ) (he : 0 < entryPrice) :
    0 ≤ atrMultiplier entryPrice atr := by
  unfold atrMultiplier
  split_ifs with h
  · exact le_min (by positivity) (by norm_num)
  · exact le_refl 0

theorem targets_ordering_aux (e atr : ℚ) (c : StyleConfig) (he : 0 < e)
    (h1 : 0 < c.tp1) (h12 : c.tp1 < c.tp2) (hsl : 0 < c.sl) :
    targetSl e c atr < e ∧ e < targetTp1 e c atr ∧
      targetTp1 e c atr < targetTp2 e c atr ∧ 0 < targetRisk e c atr ∧
      targetRr1 e c atr = targetReward1 e c atr / targetRisk e c atr ∧
      targetRr2 e c atr = targetReward2 e c atr / targetRisk e c atr ∧
      0 < targetRr1 e c atr ∧ 0 < targetRr2 e c atr := by
  have hem : 0 ≤ e * atrMultiplier e atr :=
    mul_nonneg he.le (atrMultiplier_nonneg e atr he)
  have hsllt : targetSl e c atr < e := by
    unfold targetSl
    nlinarith [mul_pos he hsl]
  have hrisk : 0 < targetRisk e c atr := by
    unfold targetRisk
    linarith
  have htp1 : e < targetTp1 e c atr := by
    unfold targetTp1
    nlinarith [mul_pos he h1]
  have htp12 : targetTp1 e c atr < targetTp2 e c atr := by
    unfold targetTp1 targetTp2
    nlinarith [mul_pos he (sub_pos.mpr h12)]
  have hr1 : 0 < targetReward1 e c atr := by
    unfold targetReward1
    linarith
  have hr2 : 0 < targetReward2 e c atr := by
    unfold targetReward2
    linarith
  have heq1 : targetRr1 e c atr = targetReward1 e c atr / targetRisk e c atr := by
    unfold targetRr1
    rw [if_pos hrisk]
  have heq2 : targetRr2 e c atr = targetReward2 e c atr / targetRisk e c atr := by
    unfold targetRr2
    rw [if_pos hrisk]
  refine ⟨hsllt, htp1, htp12, hrisk, heq1, heq2, ?_, ?_⟩
  · rw [heq1]; exact div_pos hr1 hrisk
  · rw [heq2]; exact div_pos hr2 hrisk

/-- C10: for every positive entry price, every style row of the TIMEFRAMES
table and every nonnegative ATR, the pre-rounding values of
`calculateTargets` satisfy sl < entry < tp1 < tp2, the risk is strictly
positive (so the `risk > 0` guard's zero branch for rr1/rr2 is never taken),
and rr1 and rr2 are strictly positive. -/
theorem calculateTargets_ordering (e atr : ℚ) (c : StyleConfig)
    (he : 0 < e) (hatr : 0 ≤ atr)
    (hc : c = scalpingConfig ∨ c = daytradingConfig ∨ c = swingConfig) :
    targetSl e c atr < e ∧ e < targetTp1 e c atr ∧
      targetTp1 e c atr < targetTp2 e c atr ∧ 0 < targetRisk e c atr ∧
      targetRr1 e c atr = targetReward1 e c atr / targetRisk e c atr ∧
      targetRr2 e c atr = targetReward2 e c atr / targetRisk e c atr ∧
      0 < targetRr1 e c atr ∧ 0 < targetRr2 e c atr := by
  rcases hc with rfl | rfl | rfl <;>
    exact targets_ordering_aux e atr _ he (by norm_num [scalpingConfig, daytradingConfig,
      swingConfig]) (by norm_num [scalpingConfig, daytradingConfig, swingConfig])
      (by norm_num [scalpingConfig, daytradingConfig, swingConfig])

/-- Witness for C10 at the spec's own example input: entry 100, scalping
style, atr = 0. -/
theorem calculateTargets_ordering_witness :
    targetSl 100 scalpingConfig 0 < 100 ∧ 100 < targetTp1 100 scalpingConfig 0 ∧
      targetTp1 100 scalpingConfig 0 < targetTp2 100 scalpingConfig 0 ∧
      0 < targetRisk 100 scalpingConfig 0 ∧
      targetRr1 100 scalpingConfig 0 =
        targetReward1 100 scalpingConfig 0 / targetRisk 100 scalpingConfig 0 ∧
      targetRr2 100 scalpingConfig 0 =
        targetReward2 100 scalpingConfig 0 / targetRisk 100 scalpingConfig 0 ∧
      0 < targetRr1 100 scalpingConfig 0 ∧ 0 < targetRr2 100 scalpingConfig 0 :=
  calculateTargets_ordering 100 0 scalpingConfig (by norm_num) (le_refl 0) (Or.inl rfl)

theorem lossTerm_nonneg (c : ℚ) : 0 ≤ if 0 < c then (0 : ℚ) else -c := by
  split_ifs with h
  · exact le_refl 0
  · linarith [le_of_not_lt h]

theorem gainTerm_nonneg (c : ℚ) : 0 ≤ if 0 < c then c else (0 : ℚ) := by
  split_ifs with h
  · exact h.le
  · exact le_refl 0

theorem rsiLosses_nonneg (closes : List ℚ) (period : ℕ) :
    0 ≤ rsiLosses closes period := by
  unfold rsiLosses
  refine List.sum_nonneg ?_
  intro x hx
  rcases List.mem_map.mp hx with ⟨c, _, rfl⟩
  exact lossTerm_nonneg c

theorem rsiGains_nonneg (closes : List ℚ) (period : ℕ) :
    0 ≤ rsiGains closes period := by
  unfold rsiGains
  refine List.sum_nonneg ?_
  intro x hx
  rcases List.mem_map.mp hx with ⟨c, _, rfl⟩
  exact gainTerm_nonneg c

theorem lossSum_eq_zero_iff (l : List ℚ) :
    ((l.map fun c => if 0 < c then (0 : ℚ) else -c).sum = 0) ↔ ∀ c ∈ l, 0 ≤ c := by
  induction l with
  | nil => simp
  | cons a t ih =>
    simp only [List.map_cons, List.sum_cons, List.mem_cons]
    have hterm := lossTerm_nonneg a
    have htail : 0 ≤ (t.map fun c => if 0 < c then (0 : ℚ) else -c).sum := by
      refine List.sum_nonneg ?_
      intro x hx
      rcases List.mem_map.mp hx with ⟨c, _, rfl⟩
      exact lossTerm_nonneg c
    constructor
    · intro h
      have hterm0 : (if 0 < a then (0 : ℚ) else -a) = 0 := by linarith
      have htail0 : (t.map fun c => if 0 < c then (0 : ℚ) else -c).sum = 0 := by linarith
      refine fun c hc => hc.elim (fun hca => ?_) (fun hct => (ih.mp htail0) c hct)
      subst hca
      by_cases hpos : 0 < c
      · exact hpos.le
      · have : -c = 0 := by simpa [hpos] using hterm0
        linarith
    · intro h
      have hterm0 : (if 0 < a then (0 : ℚ) else -a) = 0 := by
        rcases lt_or_eq_of_le (h a (Or.inl rfl)) with hlt | heq
        · simp [hlt]
        · simp [← heq]
      rw [hterm0, ih.mpr fun c hc => h c (Or.inr hc)]
      norm_num

/-- C5 counterexample: for the increasing series [1, 2, 3] with the default
period 14 the trailing window holds no loss (both deltas are +1), yet
`calculateRSI` returns the insufficient-length fallback 50, not 100, so the
claimed equivalence fails for short series. -/
theorem calculateRSI_short_series_breaks_iff :
    calculateRSI [1, 2, 3] 14 = 50 ∧ trailingDeltas [1, 2, 3] 14 = [1, 1] := by
  constructor
  · norm_num [calculateRSI]
  · norm_num [trailingDeltas, deltas]

/-- C5 (amended): for every period of at least 1, `calculateRSI` always lies
in [0, 100]; and whenever the series is long enough for a full trailing
window (`closes.length ≥ period + 1`), it returns exactly 100 if and only if
no delta of the trailing window is strictly negative. For shorter series the
function returns the fallback 50 regardless of the deltas. -/
theorem calculateRSI_range_and_no_loss_iff (closes : List ℚ) (period : ℕ)
    (hp : 1 ≤ period) :
    (0 ≤ calculateRSI closes period ∧ calculateRSI closes period ≤ 100) ∧
      (period + 1 ≤ closes.length →
        (calculateRSI closes period = 100 ↔
          ∀ c ∈ trailingDeltas closes period, 0 ≤ c)) := by
  have hper : (0 : ℚ) < (period : ℚ) := by
    exact_mod_cast Nat.lt_of_lt_of_le Nat.zero_lt_one hp
  have hLnn : 0 ≤ rsiLosses closes period / (period : ℚ) :=
    div_nonneg (rsiLosses_nonneg closes period) hper.le
  have hGnn : 0 ≤ rsiGains closes period / (period : ℚ) :=
    div_nonneg (rsiGains_nonneg closes period) hper.le
  constructor
  · unfold calculateRSI
    split_ifs with hlen hzero
    · norm_num
    · norm_num
    · have hL : 0 < rsiLosses closes period / (period : ℚ) :=
        lt_of_le_of_ne hLnn (Ne.symm hzero)
      have hrs : 0 ≤ (rsiGains closes period / (period : ℚ)) /
          (rsiLosses closes period / (period : ℚ)) := div_nonneg hGnn hL.le
      have h1rs : (0 : ℚ) < 1 + (rsiGains closes period / (period : ℚ)) /
          (rsiLosses closes period / (period : ℚ)) := by linarith
      have hdp : 0 < 100 / (1 + (rsiGains closes period / (period : ℚ)) /
          (rsiLosses closes period / (period : ℚ))) := by positivity
      have hdle : 100 / (1 + (rsiGains closes period / (period : ℚ)) /
          (rsiLosses closes period / (period : ℚ))) ≤ 100 := by
        rw [div_le_iff₀ h1rs]
        nlinarith
      constructor <;> linarith
  · intro hlen
    have hnotlt : ¬ closes.length < period + 1 := not_lt.mpr hlen
    unfold calculateRSI
    rw [if_neg hnotlt]
    split_ifs with hzero
    · have hzeroL : rsiLosses closes period = 0 := by
        rcases div_eq_zero_iff.mp hzero with h | h
        · exact h
        · exact absurd h (ne_of_gt hper)
      constructor
      · intro _
        exact (lossSum_eq_zero_iff _).mp hzeroL
      · intro _
        rfl
    · have hL : 0 < rsiLosses closes period / (period : ℚ) :=
        lt_of_le_of_ne hLnn (Ne.symm hzero)
      have h1rs : (0 : ℚ) < 1 + (rsiGains closes period / (period : ℚ)) /
          (rsiLosses closes period / (period : ℚ)) := by
        have := div_nonneg hGnn hL.le
        linarith
      have hdp : 0 < 100 / (1 + (rsiGains closes period / (period : ℚ)) /
          (rsiLosses closes period / (period : ℚ))) := by positivity
      constructor
      · intro h100
        exfalso
        linarith [h100]
      · intro hall
        exfalso
        have : rsiLosses closes period = 0 := (lossSum_eq_zero_iff _).mpr hall
        rw [this] at hzero
        simp at hzero

/-- Witness for C5 at a concrete input: the series [2, 1] with period 1 has a
full window, one losing delta, and an RSI of 0, inside [0, 100] and
different from 100. -/
theorem calculateRSI_range_witness :
    (0 ≤ calculateRSI [2, 1] 1 ∧ calculateRSI [2, 1] 1 ≤ 100) ∧
      (1 + 1 ≤ ([2, 1] : List ℚ).length →
        (calculateRSI [2, 1] 1 = 100 ↔ ∀ c ∈ trailingDeltas [2, 1] 1, 0 ≤ c)) :=
  calculateRSI_range_and_no_loss_iff [2, 1] 1 (le_refl 1)

theorem tagStrength_spec (n : ℕ) :
    (tagStrength n = StrengthTag.strong ↔ 3 ≤ n) ∧
      (tagStrength n = StrengthTag.moderate ↔ n = 2) ∧
      (tagStrength n = StrengthTag.weak ↔ n < 2) := by
  unfold tagStrength
  refine ⟨?_, ?_, ?_⟩ <;> split_ifs <;> simp <;> omega

/-- C1 counterexample: with lows holding four well-separated swing lows below
the price 6, `findSupportLevelsAdvanced` returns 4 entries, exceeding the
claimed cap of 3 (its dedup / cap / tagging code is unreachable); and with
two swing highs of identical price 10 above the price 5,
`findResistanceLevelsAdvanced` returns two entries both priced 10.00 — two
entries within 0.15 percent of each other, since the function never
deduplicates. -/
theorem findLevels_claim_false :
    ¬ (findSupportLevelsAdvanced [5, 5, 1, 5, 5, 2, 5, 5, 3, 5, 5, 4, 5, 5] []
        6).length ≤ 3 ∧
      (findResistanceLevelsAdvanced [0, 0, 10, 0, 0, 10, 0, 0] [] 5).map
        SRLevel.price = [10, 10] := by
  constructor
  · unfold findSupportLevelsAdvanced
    rw [List.length_mergeSort]
    decide
  · have hlen : (swingHighCandidates [0, 0, 10, 0, 0, 10, 0, 0] 5).length = 2 := by
      decide
    have hprice : ∀ c ∈ swingHighCandidates [0, 0, 10, 0, 0, 10, 0, 0] 5,
        c.price = 10 := by
      intro c hc
      simp only [swingHighCandidates, List.mem_map] at hc
      rcases hc with ⟨i, hi, rfl⟩
      have hmem := (List.mem_filter.mp hi).1
      have hpred := (List.mem_filter.mp hi).2
      have hi8 : i < 8 := by
        have := List.mem_range.mp hmem
        simpa using this
      interval_cases i <;> first
        | decide
        | exact absurd hpred (by decide)
    have hslen : ((swingHighCandidates [0, 0, 10, 0, 0, 10, 0, 0] 5).mergeSort
        (resistanceLe 5)).length = 2 := by
      rw [List.length_mergeSort, hlen]
    have htake : ((swingHighCandidates [0, 0, 10, 0, 0, 10, 0, 0] 5).mergeSort
        (resistanceLe 5)).take 3 =
        (swingHighCandidates [0, 0, 10, 0, 0, 10, 0, 0] 5).mergeSort
          (resistanceLe 5) :=
      List.take_of_length_le (by rw [hslen]; norm_num)
    unfold findResistanceLevelsAdvanced
    rw [htake, List.map_map]
    have hall : ∀ x ∈ ((swingHighCandidates [0, 0, 10, 0, 0, 10, 0, 0] 5).mergeSort
        (resistanceLe 5)).map (SRLevel.price ∘ toLevel), x = 10 := by
      intro x hx
      rcases List.mem_map.mp hx with ⟨c, hc, rfl⟩
      have hc2 : c ∈ swingHighCandidates [0, 0, 10, 0, 0, 10, 0, 0] 5 :=
        List.mem_mergeSort.mp hc
      have hp10 := hprice c hc2
      simp only [Function.comp_apply, toLevel, hp10]
      norm_num [toFixed2]
    have hlen2 : (((swingHighCandidates [0, 0, 10, 0, 0, 10, 0, 0] 5).mergeSort
        (resistanceLe 5)).map (SRLevel.price ∘ toLevel)).length = 2 := by
      rw [List.length_map, hslen]
    rcases List.length_eq_two.mp hlen2 with ⟨a, b, hab⟩
    have ha : a = 10 := hall a (by simp [hab])
    have hb : b = 10 := hall b (by simp [hab])
    rw [hab, ha, hb]

/-- C1 (amended): `findResistanceLevelsAdvanced` returns at most 3 entries
and every returned entry is the rounding-and-tagging of some swing-high
candidate, its strength label strong iff the candidate's touch count is at
least 3, moderate iff it is 2, weak iff it is below 2 — but entries within
0.15 percent of each other are not deduplicated; `findSupportLevelsAdvanced`
returns the entire sorted swing-low candidate list (numeric touch-count
strengths, no dedup, no cap, no tags), because the dedup / cap / tagging
code after its return statement is unreachable. -/
theorem findLevels_structure (lows highs closes : List ℚ) (p : ℚ) :
    (findResistanceLevelsAdvanced highs closes p).length ≤ 3 ∧
      (∀ l ∈ findResistanceLevelsAdvanced highs closes p,
        ∃ c ∈ swingHighCandidates highs p, l = toLevel c ∧
          (l.strength = StrengthTag.strong ↔ 3 ≤ c.strength) ∧
          (l.strength = StrengthTag.moderate ↔ c.strength = 2) ∧
          (l.strength = StrengthTag.weak ↔ c.strength < 2)) ∧
      (findSupportLevelsAdvanced lows closes p).length =
        (swingLowCandidates lows p).length ∧
      (∀ c ∈ findSupportLevelsAdvanced lows closes p,
        c ∈ swingLowCandidates lows p) := by
  refine ⟨?_, ?_, ?_, ?_⟩
  · unfold findResistanceLevelsAdvanced
    rw [List.length_map, List.length_take]
    exact min_le_left _ _
  · intro l hl
    unfold findResistanceLevelsAdvanced at hl
    rcases List.mem_map.mp hl with ⟨c, hc, rfl⟩
    have hc1 : c ∈ (swingHighCandidates highs p).mergeSort (resistanceLe p) :=
      List.take_subset _ _ hc
    have hc2 : c ∈ swingHighCandidates highs p := List.mem_mergeSort.mp hc1
    refine ⟨c, hc2, rfl, ?_, ?_, ?_⟩
    · simpa [toLevel] using (tagStrength_spec c.strength).1
    · simpa [toLevel] using (tagStrength_spec c.strength).2.1
    · simpa [toLevel] using (tagStrength_spec c.strength).2.2
  · unfold findSupportLevelsAdvanced
    exact List.length_mergeSort _
  · intro c hc
    exact List.mem_mergeSort.mp hc

/-- Witness for C1 at a concrete input: the resistance list of the
counterexample input indeed has at most 3 entries. -/
theorem findLevels_structure_witness :
    (findResistanceLevelsAdvanced [0, 0, 10, 0, 0, 10, 0, 0] [] 5).length ≤ 3 :=
  (findLevels_structure [] [0, 0, 10, 0, 0, 10, 0, 0] [] 5).1

/-- C6 counterexample: on the one-element series [-1] (fewer than 20 closes,
so the degenerate fallback branch runs) the bands come out inverted:
lower = -0.98 is strictly greater than middle = -1, because the fallback
multiplies a negative last close by 0.98 / 1.02. -/
theorem bollinger_claim_false :
    ¬ ((calculateBollingerBands [-1] 20).lower ≤
        (calculateBollingerBands [-1] 20).middle) := by
  unfold calculateBollingerBands
  rw [if_pos (by norm_num)]
  simp only [List.getLastD]
  push_cast
  norm_num

/-- C6 (amended): whenever the close series is non-empty and its last close
is nonnegative (every genuine price series), `calculateBollingerBands`
satisfies lower ≤ middle ≤ upper, in the degenerate fallback branch and in
the SMA plus/minus 2 standard deviation branch alike. -/
theorem bollinger_ordered (closes : List ℚ) (period : ℕ)
    (hne : closes ≠ []) (hlast : 0 ≤ closes.getLastD 0) :
    (calculateBollingerBands closes period).lower ≤
        (calculateBollingerBands closes period).middle ∧
      (calculateBollingerBands closes period).middle ≤
        (calculateBollingerBands closes period).upper := by
  have hσ : 0 ≤ bbStdDev closes period := Real.sqrt_nonneg _
  have hlast' : (0 : ℝ) ≤ ((closes.getLastD 0 : ℚ) : ℝ) := by exact_mod_cast hlast
  unfold calculateBollingerBands
  by_cases h : closes.length < period
  · rw [if_pos h]
    constructor
    · show ((closes.getLastD 0 * 0.98 : ℚ) : ℝ) ≤ ((closes.getLastD 0 : ℚ) : ℝ)
      push_cast
      linarith
    · show ((closes.getLastD 0 : ℚ) : ℝ) ≤ ((closes.getLastD 0 * 1.02 : ℚ) : ℝ)
      push_cast
      linarith
  · rw [if_neg h]
    constructor
    · show ((bbSma closes period : ℚ) : ℝ) - bbStdDev closes period * 2 ≤
        ((bbSma closes period : ℚ) : ℝ)
      linarith
    · show ((bbSma closes period : ℚ) : ℝ) ≤
        ((bbSma closes period : ℚ) : ℝ) + bbStdDev closes period * 2
      linarith

/-- Witness for C6 at a concrete input: the one-element positive series [1]
has ordered fallback bands 0.98 ≤ 1 ≤ 1.02. -/
theorem bollinger_ordered_witness :
    (calculateBollingerBands [1] 20).lower ≤
        (calculateBollingerBands [1] 20).middle ∧
      (calculateBollingerBands [1] 20).middle ≤
        (calculateBollingerBands [1] 20).upper :=
  bollinger_ordered [1] 20 (by simp) (by norm_num [List.getLastD])

end ScalpBot
